import Mathlib

/-!
Shallow embedding of the token-api parameter pipeline: the normalizer
functions (`parseLimit`, `parseTimestamp`, `formatAddress`, `parseBlockId`),
the error formatter (`APIErrorResponse`) and the usage-endpoint handler
(`createUsageEndpoint`), translated from the TypeScript source.

JS strings are modelled as `List Char`; JS numbers that matter here are
integers or NaN, modelled by `JSNum`. External collaborators (the zod
schemas generated outside the repo, the JS `Date` parser, the configured
`maxLimit`) are parameters of the embedding.
-/

namespace TokenApi

/-- A JS number as used by the normalizers: an integer or NaN.
(All numbers flowing through these functions are integral: `parseInt`
results, `Date` millisecond values, limits.) -/
inductive JSNum where
  | nan : JSNum
  | int (n : Int) : JSNum
  deriving DecidableEq, Repr

/-- Decimal digit characters of a natural number (JS `Number.toString` for
naturals below 1e21, where JS does not switch to exponential notation). -/
def natDigits (m : Nat) : List Char := (Nat.repr m).toList

/-- JS `Number.prototype.toString` restricted to the `JSNum` fragment:
`NaN` prints as "NaN", integers in decimal with a leading minus sign.
Faithful for |n| < 1e21 (beyond that JS uses exponential notation). -/
def jsNumToString : JSNum → List Char
  | .nan => ['N', 'a', 'N']
  | .int n => if n < 0 then '-' :: natDigits n.natAbs else natDigits n.natAbs

/-- Numeric value of a list of decimal digit characters. -/
def digitsVal (s : List Char) : Nat :=
  s.foldl (fun acc c => acc * 10 + (c.toNat - '0'.toNat)) 0

/-- Leading decimal digits of a (sign-stripped) `parseInt` input: NaN when
there is no leading digit, else the signed value of the digit run (trailing
non-digits ignored). -/
def jsParseIntDigits (sign : Int) (s : List Char) : JSNum :=
  let digits := s.takeWhile Char.isDigit
  if digits.isEmpty then .nan else .int (sign * (digitsVal digits : Int))

/-- JS `parseInt(s)` (radix unspecified) modelled for decimal inputs: an
optional sign followed by leading decimal digits; trailing non-digits are
ignored; no digits gives NaN. (Hex auto-detection and whitespace skipping
are not exercised by this repository.) Exact: float rounding above 2^53 is
not modelled; the limits and timestamps in scope are far below it. -/
def jsParseInt (s : List Char) : JSNum :=
  match s with
  | [] => .nan
  | c :: r =>
    if c = '-' then jsParseIntDigits (-1) r
    else if c = '+' then jsParseIntDigits 1 r
    else jsParseIntDigits 1 (c :: r)

/-- The `limit` argument of `parseLimit`: a string or a number
(`undefined`/`null` are the surrounding `Option`). -/
inductive LimitInput where
  | lStr (s : List Char) : LimitInput
  | lNum (v : JSNum) : LimitInput
  deriving DecidableEq, Repr

/-- JS truthiness of a `limit` value: a non-empty string, or a non-zero
non-NaN number. -/
def limitTruthy : LimitInput → Bool
  | .lStr s => !s.isEmpty
  | .lNum .nan => false
  | .lNum (.int n) => n ≠ 0

/-- JS truthiness of the optional `defaultLimit` number. -/
def numTruthy : Option JSNum → Bool
  | some (.int n) => n ≠ 0
  | _ => false

/-- The value a truthy `limit` assigns: `parseInt` for a string, the number
itself for a number. -/
def rawLimitValue : LimitInput → JSNum
  | .lStr s => jsParseInt s
  | .lNum v => v

/-- The final statement of `parseLimit`:
`if (value > config.maxLimit) value = config.maxLimit` — `NaN > maxLimit`
is false in JS, so NaN passes through; there is no lower clamp. -/
def clampUpper (maxLimit : Int) : JSNum → JSNum
  | .nan => .nan
  | .int n => if n > maxLimit then .int maxLimit else .int n

/-- Embedding of `parseLimit(limit?, defaultLimit?)` from src/utils
(`config.maxLimit` passed explicitly): value starts at 1, a truthy
`defaultLimit` overrides it, a truthy `limit` overrides that, and the
result is clamped from above by `maxLimit`. -/
def parseLimit (maxLimit : Int) (limit : Option LimitInput) (defaultLimit : Option JSNum) : JSNum :=
  let v1 : JSNum := .int 1
  let v2 : JSNum := if numTruthy defaultLimit then defaultLimit.getD (.int 1) else v1
  let v3 : JSNum :=
    match limit with
    | some l => if limitTruthy l then rawLimitValue l else v2
    | none => v2
  clampUpper maxLimit v3

/-- The `timestamp` argument of `parseTimestamp`: a string or a number
(`undefined`/`null` are the surrounding `Option`). -/
inductive TsInput where
  | tsStr (s : List Char) : TsInput
  | tsNum (v : JSNum) : TsInput
  deriving DecidableEq, Repr

/-- Result of `parseTimestamp` when it does not throw: `undefined`, or a JS
number (possibly NaN). -/
inductive TsOut where
  | outUndefined : TsOut
  | outNum (v : JSNum) : TsOut
  deriving DecidableEq, Repr

/-- JS `Math.floor(v / 1000)` on the `JSNum` fragment: NaN propagates,
integers use floor division (`Int.fdiv`). -/
def jsFloorDiv1000 : JSNum → JSNum
  | .nan => .nan
  | .int n => .int (Int.fdiv n 1000)

/-- The regex test `/^[0-9]+$/.test(s)`: non-empty and all decimal digits. -/
def isDigitString (s : List Char) : Bool :=
  !s.isEmpty && s.all Char.isDigit

/-- JS `s.endsWith("Z")` on the character-list model. -/
def endsWithZ (s : List Char) : Bool :=
  match s.getLast? with
  | some c => c = 'Z'
  | none => false

/-- The number branch of `parseTimestamp` from src/utils: dispatch on the
length of `timestamp.toString()` — 10 characters returns the number as
seconds, 13 converts milliseconds to seconds with `Math.floor`, anything
else throws "Invalid timestamp". -/
def parseTimestampNum (v : JSNum) : Except String TsOut :=
  let length := (jsNumToString v).length
  if length = 10 then .ok (.outNum v)
  else if length = 13 then .ok (.outNum (jsFloorDiv1000 v))
  else .error "Invalid timestamp"

/-- Embedding of `parseTimestamp(timestamp?)` from src/utils. The JS `Date`
constructor is an external runtime collaborator, passed in as `dateParse`:
`dateParse s` models `Number(new Date(s))`, an integer millisecond value or
NaN for an unparseable date string. A pure-digit string is re-dispatched
through `parseInt` to the number branch (the source's self-recursion, which
always bottoms out in one step); any other string gets a "Z" suffix if it
lacks one and goes through the date parser; `undefined`/`null` return
`undefined`. -/
def parseTimestamp (dateParse : List Char → JSNum) : Option TsInput → Except String TsOut
  | none => .ok .outUndefined
  | some (.tsStr s) =>
    if isDigitString s then parseTimestampNum (jsParseInt s)
    else
      let s2 := if endsWithZ s then s else s ++ ['Z']
      .ok (.outNum (jsFloorDiv1000 (dateParse s2)))
  | some (.tsNum v) => parseTimestampNum v

/-- Embedding of `formatAddress(address)` from src/utils: a falsy input
(null, or the empty string) gives `undefined`; a string starting with "0x"
loses its first two characters; anything else is returned unchanged. -/
def formatAddress : Option (List Char) → Option (List Char)
  | none => none
  | some a =>
    if a.isEmpty then none
    else if ['0', 'x'].isPrefixOf a then some (a.drop 2)
    else some a

/-- JS `s.replace(pat, rep)` with a string pattern: replaces only the FIRST
occurrence of `pat` in `s` (anywhere, not only as a prefix). -/
def jsReplaceFirst : List Char → List Char → List Char → List Char
  | [], pat, rep => if pat.isPrefixOf ([] : List Char) then rep else []
  | c :: rest, pat, rep =>
    if pat.isPrefixOf (c :: rest) then rep ++ (c :: rest).drop pat.length
    else c :: jsReplaceFirst rest pat rep

/-- Embedding of `parseBlockId(block_id?)` from src/utils:
`block_id ? block_id.replace("0x", "") : undefined` — a falsy input gives
`undefined`, otherwise the first occurrence of "0x" is removed. -/
def parseBlockId : Option (List Char) → Option (List Char)
  | none => none
  | some s =>
    if s.isEmpty then none else some (jsReplaceFirst s ['0', 'x'] [])

/-- Whether `pat` occurs as a contiguous sublist anywhere in `s`. -/
def containsSub : List Char → List Char → Bool
  | [], pat => pat.isPrefixOf ([] : List Char)
  | c :: rest, pat => pat.isPrefixOf (c :: rest) || containsSub rest pat

/-- A zod field issue: issue code, field path segments, human message.
(Path segments are rendered with `join('/')`; numeric segments are already
rendered as strings here.) -/
structure ZodIssue where
  code : String
  path : List String
  message : String
  deriving DecidableEq, Repr

/-- The `err` argument of `APIErrorResponse`, split by the `typeof` /
`instanceof` chain of the source: a string, a `ZodError` (its issue list),
some other `Error` (its message), or anything else. -/
inductive ErrInput where
  | errStr (s : String) : ErrInput
  | errZod (issues : List ZodIssue) : ErrInput
  | errGeneric (msg : String) : ErrInput
  | errOther : ErrInput
  deriving DecidableEq, Repr

/-- The API error record `{ status, code, message }` built by
`APIErrorResponse`. -/
structure APIError where
  status : Nat
  code : String
  message : String
  deriving DecidableEq, Repr

/-- Rendering of one zod issue inside `APIErrorResponse`:
`` `[${issue.code}] ${issue.path.join('/')}: ${issue.message}` ``. -/
def renderIssue (i : ZodIssue) : String :=
  "[" ++ i.code ++ "] " ++ String.intercalate "/" i.path ++ ": " ++ i.message

/-- The observable effects of one `APIErrorResponse` call: the JSON response
record, the sequence of `logger.error` calls, and the sequence of
`prometheus.request_error.inc` calls (tagged pathname and status). -/
structure ErrorResponseEffect where
  response : APIError
  logged : List APIError
  counted : List (String × Nat)
  deriving DecidableEq, Repr

/-- Embedding of `APIErrorResponse(ctx, status, code, err)` from src/utils:
derives `message` by the `typeof`/`instanceof` chain (string verbatim;
`ZodError` rendered as newline-joined issue lines; `Error` message; else the
fixed fallback), builds the `{status, code, message}` record, logs it once,
increments the error counter once, and returns it as the JSON response. -/
def APIErrorResponse (pathname : String) (status : Nat) (code : String) (err : ErrInput) :
    ErrorResponseEffect :=
  let message : String :=
    match err with
    | .errStr s => s
    | .errZod issues => String.intercalate "\n" (issues.map renderIssue)
    | .errGeneric m => m
    | .errOther => "An unexpected error occured"
  let api_error : APIError := ⟨status, code, message⟩
  ⟨api_error, [api_error], [(pathname, status)]⟩

/-- A JS value appearing in a parameter object: a string, or an array of
strings (what `block_range.split(',')` produces). -/
inductive JSVal where
  | vStr (s : List Char) : JSVal
  | vList (l : List (List Char)) : JSVal
  deriving DecidableEq, Repr

/-- A parameter object: ordered key/value pairs (JS object insertion
order). -/
abbrev ParamObj := List (String × JSVal)

/-- A raw query-string set as handed over by `ctx.req.query()`: every value
is a string. -/
abbrev RawQuery := List (String × List Char)

/-- First binding of key `k` in a parameter object (JS property read). -/
def lookupP : ParamObj → String → Option JSVal
  | [], _ => none
  | (k0, v0) :: rest, k => if k0 = k then some v0 else lookupP rest k

/-- First binding of key `k` in a raw query set (JS property read). -/
def lookupR : RawQuery → String → Option (List Char)
  | [], _ => none
  | (k0, v0) :: rest, k => if k0 = k then some v0 else lookupR rest k

/-- JS property write `q[k] = v`: overwrites in place, or appends a new key
at the end. -/
def setP : ParamObj → String → JSVal → ParamObj
  | [], k, v => [(k, v)]
  | (k0, v0) :: rest, k, v =>
    if k0 = k then (k, v) :: rest else (k0, v0) :: setP rest k v

/-- JS `s.split(',')`: the comma-separated chunks, keeping empty chunks
(so the empty string splits to `[""]`). -/
def splitComma : List Char → List (List Char)
  | [] => [[]]
  | c :: rest =>
    if c = ',' then [] :: splitComma rest
    else
      match splitComma rest with
      | g :: gs => (c :: g) :: gs
      | [] => [[c]]

/-- The `z.preprocess` step of the query schema in `createUsageEndpoint`
(src/index.ts): every raw query value starts as a string; if a truthy (i.e.
non-empty) `block_range` is present it is replaced by
`block_range.split(',')` before schema validation. -/
def preprocessQuery (raw : RawQuery) : ParamObj :=
  let q : ParamObj := raw.map (fun p => (p.1, JSVal.vStr p.2))
  match lookupP q "block_range" with
  | some (.vStr s) => if s.isEmpty then q else setP q "block_range" (.vList (splitComma s))
  | _ => q

/-- The fixed address-bearing field names of the `.transform` step. -/
def addressProps : List String := ["contract", "account", "from", "to"]

/-- Whether a string value is truthy and case-insensitively starts with
"0x" (`q[prop] && typeof q[prop] === 'string' &&
q[prop].toLowerCase().startsWith('0x')`). -/
def hasHexMarker (s : List Char) : Bool :=
  !s.isEmpty && ['0', 'x'].isPrefixOf (s.map Char.toLower)

/-- One step of the `.transform`: drop the "0x" of `prop` when it is a
truthy string with the case-insensitive marker (`substring(2)`). -/
def stripProp (q : ParamObj) (prop : String) : ParamObj :=
  match lookupP q prop with
  | some (.vStr s) => if hasHexMarker s then setP q prop (.vStr (s.drop 2)) else q
  | _ => q

/-- The `.transform` post-processing of the query schema: strip the "0x"
marker from each of the four address-bearing fields, in order. -/
def transformAddrs (q : ParamObj) : ParamObj :=
  addressProps.foldl stripProp q

/-- Outcome of a zod `safeParse`: success with the parsed data, or failure
with the issue list in schema order. -/
inductive ParseResult (α : Type) where
  | success (data : α) : ParseResult α
  | failure (issues : List ZodIssue) : ParseResult α
  deriving DecidableEq, Repr

/-- Issues contributed by one `safeParse` outcome to the merged `ZodError`
(`e.addIssues(r.error?.issues)`: a success contributes nothing). -/
def issuesOf {α : Type} : ParseResult α → List ZodIssue
  | .success _ => []
  | .failure issues => issues

/-- Whether a `safeParse` outcome is a success. -/
def isSuccess {α : Type} : ParseResult α → Bool
  | .success _ => true
  | .failure _ => false

/-- The full query-schema pipeline of `createUsageEndpoint`:
`z.preprocess(..., schema).transform(...)` applied via `safeParse` — the
preprocessed raw query goes through the endpoint's base schema (an external
generated collaborator, passed as `schema`), and only a successful parse is
post-processed by the address transform; a failure keeps its issues (and
its prefixes) untouched. -/
def queryParse (schema : ParamObj → ParseResult ParamObj) (raw : RawQuery) :
    ParseResult ParamObj :=
  match schema (preprocessQuery raw) with
  | .success d => .success (transformAddrs d)
  | .failure issues => .failure issues

/-- JS object spread `{...a, ...b}` on parameter objects: every binding of
`b` written over `a`, in order. -/
def spreadOver (a b : ParamObj) : ParamObj :=
  b.foldl (fun acc p => setP acc p.1 p.2) a

/-- Outcome of one usage-endpoint request: a dispatched query with the
merged validated parameters, or a single error response. -/
inductive Outcome where
  | dispatched (params : ParamObj) : Outcome
  | errored (eff : ErrorResponseEffect) : Outcome
  deriving DecidableEq, Repr

/-- Embedding of the `createUsageEndpoint` handler body (src/index.ts):
both `safeParse` calls run unconditionally; if both succeed the query is
dispatched with `{...path_params.data, ...query_params.data}`; otherwise
the path issues and query issues are merged, in that order, into one
`ZodError` and surfaced as a single 400 `bad_query_input` API error. The
path schema and the base query schema are the external generated
collaborators, passed in as functions. -/
def createUsageEndpoint (pathname : String)
    (pathSchema : RawQuery → ParseResult ParamObj)
    (queryBaseSchema : ParamObj → ParseResult ParamObj)
    (rawPath : RawQuery) (rawQuery : RawQuery) : Outcome :=
  let path_params := pathSchema rawPath
  let query_params := queryParse queryBaseSchema rawQuery
  match path_params, query_params with
  | .success pd, .success qd => .dispatched (spreadOver pd qd)
  | pp, qp =>
    .errored (APIErrorResponse pathname 400 "bad_query_input"
      (.errZod (issuesOf pp ++ issuesOf qp)))

/-! ## Helper lemmas -/

theorem clampUpper_int (maxLimit m : Int) :
    clampUpper maxLimit (.int m) = .int (if m > maxLimit then maxLimit else m) := by
  by_cases hm : m > maxLimit <;> simp [clampUpper, hm]

theorem clampUpper_int_le {maxLimit : Int} {v : JSNum} {n : Int}
    (h : clampUpper maxLimit v = .int n) : n ≤ maxLimit := by
  cases v with
  | nan => simp [clampUpper] at h
  | int m =>
    rw [clampUpper_int] at h
    cases h
    by_cases hm : m > maxLimit
    · simp [hm]
    · simp only [hm, if_false]
      omega

theorem parseLimit_int_le {maxLimit : Int} {limit : Option LimitInput}
    {defaultLimit : Option JSNum} {n : Int}
    (h : parseLimit maxLimit limit defaultLimit = .int n) : n ≤ maxLimit := by
  unfold parseLimit at h
  exact clampUpper_int_le h

/-! ## Claim C3 -/

/-- C3 claims every `parseLimit` result lies in `[1, maxLimit]` and that a
zero or negative raw limit is always coerced to the default. Refuted: a
negative raw limit is truthy, so it survives (only the upper bound is
clamped), and the string "0" is truthy, so it survives as the value 0. -/
theorem C3_counterexample :
    parseLimit 500 (some (.lNum (.int (-5)))) none = .int (-5) ∧
    ¬(1 ≤ (-5 : Int)) ∧
    parseLimit 500 (some (.lStr ['0'])) (some (.int 7)) = .int 0 := by
  refine ⟨by decide, by decide, by decide⟩

/-- C3 amended: the result of `parseLimit`, when it is a number, never
exceeds `maxLimit`; a raw limit that is the number 0 or the empty string is
falsy and hence coerced to the configured default before clamping. (A
negative raw limit, or the string "0", survives: only the upper bound is
enforced.) -/
theorem C3_limit_upper_clamp (maxLimit : Int) (limit : Option LimitInput)
    (defaultLimit : Option JSNum) :
    (∀ n : Int, parseLimit maxLimit limit defaultLimit = .int n → n ≤ maxLimit) ∧
    parseLimit maxLimit (some (.lNum (.int 0))) defaultLimit =
      parseLimit maxLimit none defaultLimit ∧
    parseLimit maxLimit (some (.lStr [])) defaultLimit =
      parseLimit maxLimit none defaultLimit := by
  refine ⟨fun n h => parseLimit_int_le h, ?_, ?_⟩ <;> rfl

/-- Witness for the amended C3 at concrete inputs. -/
theorem C3_limit_upper_clamp_witness :
    parseLimit 500 (some (.lNum (.int 750))) none = .int 500 ∧ (500 : Int) ≤ 500 :=
  ⟨by decide, (C3_limit_upper_clamp 500 (some (.lNum (.int 750))) none).1 500 (by decide)⟩

/-! ## Claim C4 -/

/-- C4 claims `parseLimit` always returns a usable integer `<= maxLimit`,
that an absent raw limit with a present default yields that default
(clamped), and that a present raw limit always overrides the default.
Refuted: an unparseable string yields NaN (not an integer, and JS NaN
comparisons are false); a present default of 0 is falsy and yields 1, not
0; a present raw limit of 0 is falsy and does not override the default. -/
theorem C4_counterexample :
    parseLimit 500 (some (.lStr ['a', 'b', 'c'])) none = .nan ∧
    parseLimit 500 none (some (.int 0)) = .int 1 ∧
    parseLimit 500 (some (.lNum (.int 0))) (some (.int 7)) = .int 7 := by
  refine ⟨by decide, by decide, by decide⟩

/-- C4 amended: `parseLimit` never throws; whenever its result is a number
it is `<= maxLimit` (an unparseable raw string propagates NaN instead);
with a falsy raw limit and a falsy default the result is exactly 1 (for a
configured `maxLimit >= 1`); with a falsy raw limit and a truthy default
the result is the default clamped to `maxLimit`; a truthy raw limit is
parsed and overrides the default (the result no longer depends on it). -/
theorem C4_limit_resolution (maxLimit d : Int) (limit : Option LimitInput)
    (defaultLimit d2 : Option JSNum) (hmax : 1 ≤ maxLimit) :
    (∀ n : Int, parseLimit maxLimit limit defaultLimit = .int n → n ≤ maxLimit) ∧
    (numTruthy defaultLimit = false → parseLimit maxLimit none defaultLimit = .int 1) ∧
    (d ≠ 0 → parseLimit maxLimit none (some (.int d)) =
      .int (if d > maxLimit then maxLimit else d)) ∧
    (∀ l, limitTruthy l = true →
      parseLimit maxLimit (some l) defaultLimit =
        clampUpper maxLimit (rawLimitValue l) ∧
      parseLimit maxLimit (some l) defaultLimit = parseLimit maxLimit (some l) d2) := by
  refine ⟨fun n h => parseLimit_int_le h, ?_, ?_, ?_⟩
  · intro hd
    simp only [parseLimit, hd, Bool.false_eq_true, if_false]
    rw [clampUpper_int, if_neg (by omega)]
  · intro hd
    simp only [parseLimit]
    rw [if_pos (by simp [numTruthy, hd]), Option.getD_some, clampUpper_int]
  · intro l hl
    refine ⟨?_, ?_⟩ <;> simp [parseLimit, hl]

/-- Witness for the amended C4 at concrete inputs. -/
theorem C4_limit_resolution_witness :
    (1 : Int) ≤ 500 ∧ numTruthy none = false ∧ parseLimit 500 none none = .int 1 :=
  ⟨by decide, by decide, ((C4_limit_resolution 500 7 none none none (by decide)).2.1 (by decide))⟩

/-! ## parseTimestamp lemmas -/

theorem jsNumToString_ofNat (n : Nat) : jsNumToString (.int (n : Int)) = natDigits n := by
  simp only [jsNumToString]
  rw [if_neg (by omega), Int.natAbs_ofNat]

theorem jsParseInt_digitString {s : List Char} (h : isDigitString s = true) :
    jsParseInt s = .int (digitsVal s) := by
  unfold isDigitString at h
  rcases s with _ | ⟨c, rest⟩
  · simp at h
  · simp only [Bool.and_eq_true] at h
    obtain ⟨-, hall⟩ := h
    have hc : c.isDigit = true := List.all_eq_true.mp hall c (by simp)
    have hcm : ¬(c = '-') := by rintro rfl; exact absurd hc (by decide)
    have hcp : ¬(c = '+') := by rintro rfl; exact absurd hc (by decide)
    simp only [jsParseInt, if_neg hcm, if_neg hcp, jsParseIntDigits]
    rw [List.takeWhile_eq_self_iff.mpr (fun x hx => List.all_eq_true.mp hall x hx)]
    simp

/-! ## Claim C5 -/

/-- C5: the number branch of `parseTimestamp` dispatches on the decimal
digit length of the (natural-number) timestamp: exactly 10 digits is
returned unchanged as seconds, exactly 13 digits is floor-divided by 1000,
and any other digit length throws "Invalid timestamp"; a pure-digit string
is treated as the equivalent number; an absent input yields `undefined`.
(The bound `n < 10^21` keeps the model of JS `toString` faithful — beyond
it JS switches to exponential notation; 10- and 13-digit values are far
below it.) -/
theorem C5_timestamp_digit_length (dateParse : List Char → JSNum) (n : Nat) (s : List Char)
    (_hn : n < 10 ^ 21) :
    ((natDigits n).length = 10 →
      parseTimestamp dateParse (some (.tsNum (.int (n : Int)))) = .ok (.outNum (.int (n : Int)))) ∧
    ((natDigits n).length = 13 →
      parseTimestamp dateParse (some (.tsNum (.int (n : Int)))) =
        .ok (.outNum (.int ((n / 1000 : Nat) : Int)))) ∧
    ((natDigits n).length ≠ 10 → (natDigits n).length ≠ 13 →
      parseTimestamp dateParse (some (.tsNum (.int (n : Int)))) = .error "Invalid timestamp") ∧
    (isDigitString s = true →
      parseTimestamp dateParse (some (.tsStr s)) = parseTimestampNum (.int (digitsVal s))) ∧
    parseTimestamp dateParse none = .ok .outUndefined := by
  have hts : jsNumToString (.int (n : Int)) = natDigits n := jsNumToString_ofNat n
  refine ⟨?_, ?_, ?_, ?_, rfl⟩
  · intro h10
    show parseTimestampNum (.int (n : Int)) = _
    simp [parseTimestampNum, hts, h10]
  · intro h13
    show parseTimestampNum (.int (n : Int)) = _
    have hdiv : Int.fdiv (n : Int) 1000 = ((n / 1000 : Nat) : Int) := by
      have := Int.ofNat_fdiv n 1000
      simpa using this.symm
    simp [parseTimestampNum, hts, h13, jsFloorDiv1000, hdiv]
  · intro h10 h13
    show parseTimestampNum (.int (n : Int)) = _
    simp [parseTimestampNum, hts, h10, h13]
  · intro hds
    simp only [parseTimestamp]
    rw [if_pos hds, jsParseInt_digitString hds]

/-- Witness for C5 at a concrete 10-digit timestamp. -/
theorem C5_timestamp_digit_length_witness :
    (1529002377 : Nat) < 10 ^ 21 ∧ (natDigits 1529002377).length = 10 ∧
    parseTimestamp (fun _ => .nan) (some (.tsNum (.int ((1529002377 : Nat) : Int)))) =
      .ok (.outNum (.int ((1529002377 : Nat) : Int))) :=
  ⟨by decide, by decide,
    ((C5_timestamp_digit_length (fun _ => .nan) 1529002377 []) (by decide)).1 (by decide)⟩

/-! ## Claim C6 -/

/-- C6: for a date/time string (any non-pure-digit string), `parseTimestamp`
appends the UTC marker 'Z' exactly when the string does not already end in
one, hands the result to the date parser, and converts the millisecond
value to whole seconds by floor division — the returned seconds bracket the
milliseconds from below (truncation, never rounding up). -/
theorem C6_date_string_truncation (dateParse : List Char → JSNum) (s : List Char) (ms : Int)
    (hnd : isDigitString s = false) :
    endsWithZ (if endsWithZ s then s else s ++ ['Z']) = true ∧
    (endsWithZ s = true → (if endsWithZ s then s else s ++ ['Z']) = s) ∧
    (endsWithZ s = false → (if endsWithZ s then s else s ++ ['Z']) = s ++ ['Z']) ∧
    (dateParse (if endsWithZ s then s else s ++ ['Z']) = .int ms →
      parseTimestamp dateParse (some (.tsStr s)) = .ok (.outNum (.int (Int.fdiv ms 1000))) ∧
      1000 * Int.fdiv ms 1000 ≤ ms ∧ ms < 1000 * Int.fdiv ms 1000 + 1000) := by
  have hfd : Int.fdiv ms 1000 = ms / 1000 := Int.fdiv_eq_ediv ms (by norm_num)
  refine ⟨?_, fun hz => by rw [if_pos hz], fun hz => by simp [hz], fun hdp => ⟨?_, ?_, ?_⟩⟩
  · by_cases hz : endsWithZ s
    · rwa [if_pos hz]
    · rw [if_neg hz]
      simp [endsWithZ, List.getLast?_concat]
  · simp only [parseTimestamp]
    rw [if_neg (by simp [hnd]), hdp]
    rfl
  · rw [hfd]; omega
  · rw [hfd]; omega

/-- Witness for C6 at a concrete date/time string without a UTC marker. -/
theorem C6_date_string_truncation_witness :
    isDigitString ("2018-06-14T18:12:57.123".toList) = false ∧
    parseTimestamp (fun _ => .int 1529002377123)
        (some (.tsStr ("2018-06-14T18:12:57.123".toList))) =
      .ok (.outNum (.int (Int.fdiv 1529002377123 1000))) :=
  ⟨by decide,
    ((C6_date_string_truncation (fun _ => .int 1529002377123)
      ("2018-06-14T18:12:57.123".toList) 1529002377123 (by decide)).2.2.2 rfl).1⟩

/-! ## Claim C10 -/

/-- C10: a defined, non-null string that is neither a pure-digit string nor
parseable as a date (after the 'Z' suffix is added) makes `parseTimestamp`
return the JS number NaN: `Math.floor(NaN / 1000)` is NaN, so the function
neither throws "Invalid timestamp" nor returns `undefined`. -/
theorem C10_unparseable_date_nan (dateParse : List Char → JSNum) (s : List Char)
    (hnd : isDigitString s = false)
    (hfail : dateParse (if endsWithZ s then s else s ++ ['Z']) = .nan) :
    parseTimestamp dateParse (some (.tsStr s)) = .ok (.outNum .nan) ∧
    (∀ msg : String, parseTimestamp dateParse (some (.tsStr s)) ≠ .error msg) ∧
    parseTimestamp dateParse (some (.tsStr s)) ≠ .ok .outUndefined := by
  have h : parseTimestamp dateParse (some (.tsStr s)) = .ok (.outNum .nan) := by
    simp only [parseTimestamp]
    rw [if_neg (by simp [hnd]), hfail]
    rfl
  refine ⟨h, fun msg hc => ?_, fun hc => ?_⟩
  · rw [h] at hc
    cases hc
  · rw [h] at hc
    cases hc

/-- Witness for C10 at the string "not-a-date" with a date parser that
rejects it. -/
theorem C10_unparseable_date_nan_witness :
    isDigitString ("not-a-date".toList) = false ∧
    parseTimestamp (fun _ => .nan) (some (.tsStr ("not-a-date".toList))) =
      .ok (.outNum .nan) :=
  ⟨by decide,
    (C10_unparseable_date_nan (fun _ => .nan) ("not-a-date".toList) (by decide) rfl).1⟩

/-! ## Claim C7 -/

/-- C7 claims `formatAddress` is the identity on every string not beginning
with "0x" and idempotent on already-stripped values. Refuted: the empty
string is falsy in JS, so `formatAddress("")` is `undefined` rather than
`""`; and stripping "0x0x1" yields "0x1", which still carries a marker, so
a second application strips again — not a no-op. -/
theorem C7_counterexample :
    formatAddress (some []) = none ∧ none ≠ some ([] : List Char) ∧
    formatAddress (some ['0', 'x', '0', 'x', '1']) = some ['0', 'x', '1'] ∧
    formatAddress (some ['0', 'x', '1']) = some ['1'] ∧
    some ['1'] ≠ some ['0', 'x', '1'] := by
  refine ⟨by decide, by decide, by decide, by decide, by decide⟩

/-- C7 amended: `formatAddress` maps a null/absent input — and the falsy
empty string — to absent; every non-empty string beginning with "0x" maps
to its remainder, and re-prefixing "0x" round-trips to the original; every
non-empty string not beginning with "0x" is returned unchanged, hence a
second application to such an already-stripped value is a no-op. -/
theorem C7_address_marker_stripping (s : List Char) :
    formatAddress none = none ∧
    formatAddress (some []) = none ∧
    (s ≠ [] → ['0', 'x'].isPrefixOf s = true →
      formatAddress (some s) = some (s.drop 2) ∧ '0' :: 'x' :: s.drop 2 = s) ∧
    (s ≠ [] → ['0', 'x'].isPrefixOf s = false →
      formatAddress (some s) = some s ∧
      formatAddress (formatAddress (some s)) = formatAddress (some s)) := by
  refine ⟨rfl, rfl, fun hne hpre => ?_, fun hne hpre => ?_⟩
  · obtain ⟨t, rfl⟩ : ∃ t, ['0', 'x'] ++ t = s := List.isPrefixOf_iff_prefix.mp hpre
    refine ⟨?_, rfl⟩
    simp [formatAddress, hpre]
  · have h1 : formatAddress (some s) = some s := by
      simp only [formatAddress]
      rw [if_neg (by simpa using hne), if_neg (by simp [hpre])]
    exact ⟨h1, by rw [h1, h1]⟩

/-- Witness for the amended C7 at a concrete prefixed address. -/
theorem C7_address_marker_stripping_witness :
    formatAddress (some ['0', 'x', 'a', 'b']) = some ['a', 'b'] ∧
    '0' :: 'x' :: ['a', 'b'] = ['0', 'x', 'a', 'b'] :=
  (C7_address_marker_stripping ['0', 'x', 'a', 'b']).2.2.1 (by decide) (by decide)

/-! ## Claim C8 -/

theorem jsReplaceFirst_of_not_contains {s pat rep : List Char}
    (h : containsSub s pat = false) : jsReplaceFirst s pat rep = s := by
  induction s with
  | nil =>
    simp only [containsSub] at h
    simp [jsReplaceFirst, h]
  | cons c rest ih =>
    simp only [containsSub, Bool.or_eq_false_iff] at h
    obtain ⟨h1, h2⟩ := h
    simp only [jsReplaceFirst]
    rw [if_neg (by simp [h1]), ih h2]

/-- C8 claims `parseBlockId` and `formatAddress` agree on every present,
non-empty string. Refuted: `String.prototype.replace` with a string pattern
replaces the first occurrence of "0x" anywhere, not only a leading one, so
on "10x2" `parseBlockId` gives "12" while `formatAddress` leaves "10x2"
unchanged. -/
theorem C8_counterexample :
    parseBlockId (some ['1', '0', 'x', '2']) = some ['1', '2'] ∧
    formatAddress (some ['1', '0', 'x', '2']) = some ['1', '0', 'x', '2'] ∧
    parseBlockId (some ['1', '0', 'x', '2']) ≠ formatAddress (some ['1', '0', 'x', '2']) := by
  refine ⟨by decide, by decide, by decide⟩

/-- C8 amended: `parseBlockId` removes the first occurrence of "0x"
anywhere in the identifier, while `formatAddress` strips only a leading
"0x"; the two agree on every non-empty string that either starts with "0x"
or contains no "0x" at all. Absent (and empty, both being falsy) input
yields absent output, and `parseBlockId` never rejects a non-empty input —
it performs no format validation. -/
theorem C8_block_id_stripping (s : List Char) (hne : s ≠ []) :
    (['0', 'x'].isPrefixOf s = true ∨ containsSub s ['0', 'x'] = false →
      parseBlockId (some s) = formatAddress (some s)) ∧
    parseBlockId none = none ∧
    parseBlockId (some []) = none ∧
    (parseBlockId (some s)).isSome = true := by
  have hnemp : s.isEmpty = false := by simpa using hne
  refine ⟨fun h => ?_, rfl, rfl, ?_⟩
  · rcases h with hpre | hnc
    · obtain ⟨t, rfl⟩ : ∃ t, ['0', 'x'] ++ t = s := List.isPrefixOf_iff_prefix.mp hpre
      simp only [parseBlockId, formatAddress, hnemp, Bool.false_eq_true, if_false,
        if_pos hpre]
      rw [show (['0', 'x'] ++ t : List Char) = '0' :: 'x' :: t from rfl]
      simp only [jsReplaceFirst]
      rw [if_pos (by simp)]
      rfl
    · have hpre : ['0', 'x'].isPrefixOf s = false := by
        cases s with
        | nil => exact absurd rfl hne
        | cons c rest =>
          simp only [containsSub, Bool.or_eq_false_iff] at hnc
          exact hnc.1
      simp only [parseBlockId, formatAddress, hnemp, Bool.false_eq_true, if_false]
      rw [jsReplaceFirst_of_not_contains hnc, if_neg (by simp [hpre])]
  · simp only [parseBlockId, hnemp, Bool.false_eq_true, if_false, Option.isSome_some]

/-- Witness for the amended C8: on a "0x"-prefixed identifier both
functions strip the marker; on a marker-free identifier both are the
identity. -/
theorem C8_block_id_stripping_witness :
    parseBlockId (some ['0', 'x', '1', 'f']) = formatAddress (some ['0', 'x', '1', 'f']) ∧
    parseBlockId (some ['1', '2', '3']) = formatAddress (some ['1', '2', '3']) :=
  ⟨(C8_block_id_stripping ['0', 'x', '1', 'f'] (by decide)).1 (Or.inl (by decide)),
   (C8_block_id_stripping ['1', '2', '3'] (by decide)).1 (Or.inr (by decide))⟩

/-! ## Claim C9 -/

/-- C9: every `APIErrorResponse` call produces exactly one
`{status, code, message}` record, logs it exactly once and increments the
error counter (tagged with the request path and status) exactly once; the
message is the error verbatim for a string, the newline-joined
"[issueCode] field/path: message" rendering for a validation error, the
error's message for a generic `Error`, and the fixed unexpected-error
fallback otherwise. -/
theorem C9_error_formatter (pathname : String) (status : Nat) (code : String) (err : ErrInput) :
    (APIErrorResponse pathname status code err).logged =
      [(APIErrorResponse pathname status code err).response] ∧
    (APIErrorResponse pathname status code err).counted = [(pathname, status)] ∧
    (APIErrorResponse pathname status code err).response.status = status ∧
    (APIErrorResponse pathname status code err).response.code = code ∧
    (APIErrorResponse pathname status code err).response.message =
      (match err with
       | .errStr s => s
       | .errZod issues => String.intercalate "\n" (issues.map renderIssue)
       | .errGeneric m => m
       | .errOther => "An unexpected error occured") := by
  cases err <;> exact ⟨rfl, rfl, rfl, rfl, rfl⟩

/-! ## Claim C1 -/

/-- C1: whenever path validation, query validation, or both fail, the
handler returns a single 400 `bad_query_input` error response whose issue
list is the path issues followed by the query issues (both `safeParse`
calls having run — a failed source never suppresses the other's issues),
no query is dispatched, and exactly one error record is logged. -/
theorem C1_merged_validation_error (pathname : String)
    (pathSchema : RawQuery → ParseResult ParamObj)
    (queryBaseSchema : ParamObj → ParseResult ParamObj)
    (rawPath rawQuery : RawQuery)
    (hfail : ¬(isSuccess (pathSchema rawPath) = true ∧
               isSuccess (queryParse queryBaseSchema rawQuery) = true)) :
    createUsageEndpoint pathname pathSchema queryBaseSchema rawPath rawQuery =
      .errored (APIErrorResponse pathname 400 "bad_query_input"
        (.errZod (issuesOf (pathSchema rawPath) ++
          issuesOf (queryParse queryBaseSchema rawQuery)))) ∧
    (∀ p : ParamObj,
      createUsageEndpoint pathname pathSchema queryBaseSchema rawPath rawQuery ≠
        .dispatched p) ∧
    (APIErrorResponse pathname 400 "bad_query_input"
      (.errZod (issuesOf (pathSchema rawPath) ++
        issuesOf (queryParse queryBaseSchema rawQuery)))).logged.length = 1 := by
  have h : createUsageEndpoint pathname pathSchema queryBaseSchema rawPath rawQuery =
      .errored (APIErrorResponse pathname 400 "bad_query_input"
        (.errZod (issuesOf (pathSchema rawPath) ++
          issuesOf (queryParse queryBaseSchema rawQuery)))) := by
    unfold createUsageEndpoint
    rcases hp : pathSchema rawPath with d | i <;>
      rcases hq : queryParse queryBaseSchema rawQuery with d2 | i2
    · exact absurd ⟨by rw [hp]; rfl, by rw [hq]; rfl⟩ hfail
    · simp [hp, hq]
    · simp [hp, hq]
    · simp [hp, hq]
  refine ⟨h, fun p hc => ?_, rfl⟩
  rw [h] at hc
  cases hc

/-- Witness for C1: with a failing path schema and a failing query schema,
the handler does not dispatch. -/
theorem C1_merged_validation_error_witness :
    createUsageEndpoint "/p"
        (fun _ => .failure [⟨"invalid_type", ["address"], "Required"⟩])
        (fun _ => .failure [⟨"invalid_type", ["limit"], "Expected number"⟩]) [] [] ≠
      .dispatched [] :=
  (C1_merged_validation_error "/p"
    (fun _ => .failure [⟨"invalid_type", ["address"], "Required"⟩])
    (fun _ => .failure [⟨"invalid_type", ["limit"], "Expected number"⟩]) [] []
    (by decide)).2.1 []

/-! ## Claim C2 -/

theorem lookupP_setP_self (q : ParamObj) (k : String) (v : JSVal) :
    lookupP (setP q k v) k = some v := by
  induction q with
  | nil => simp [setP, lookupP]
  | cons p rest ih =>
    by_cases hk : p.1 = k
    · simp [setP, hk, lookupP]
    · simp only [setP]
      rw [if_neg hk]
      simp only [lookupP]
      rw [if_neg hk]
      exact ih

theorem lookupP_setP_ne (q : ParamObj) {k k2 : String} (v : JSVal) (h : k ≠ k2) :
    lookupP (setP q k v) k2 = lookupP q k2 := by
  induction q with
  | nil => simp [setP, lookupP, h]
  | cons p rest ih =>
    by_cases hk : p.1 = k
    · simp only [setP]
      rw [if_pos hk]
      simp only [lookupP]
      rw [if_neg h, if_neg (hk ▸ h)]
    · simp only [setP]
      rw [if_neg hk]
      simp only [lookupP]
      by_cases hk2 : p.1 = k2
      · rw [if_pos hk2, if_pos hk2]
      · rw [if_neg hk2, if_neg hk2]
        exact ih

theorem lookupP_map_vStr (raw : RawQuery) (k : String) :
    lookupP (raw.map (fun p => (p.1, JSVal.vStr p.2))) k =
      (lookupR raw k).map JSVal.vStr := by
  induction raw with
  | nil => rfl
  | cons p rest ih =>
    simp only [List.map_cons, lookupP, lookupR]
    by_cases hk : p.1 = k
    · rw [if_pos hk, if_pos hk]
      rfl
    · rw [if_neg hk, if_neg hk]
      exact ih

theorem lookupP_stripProp_self (q : ParamObj) (p : String) :
    lookupP (stripProp q p) p =
      (match lookupP q p with
       | some (.vStr t) => if hasHexMarker t then some (.vStr (t.drop 2)) else some (.vStr t)
       | o => o) := by
  rcases hq : lookupP q p with - | v
  · simp [stripProp, hq]
  · cases v with
    | vStr t =>
      by_cases hm : hasHexMarker t
      · simp [stripProp, hq, hm, lookupP_setP_self]
      · simp [stripProp, hq, hm]
    | vList l => simp [stripProp, hq]

theorem lookupP_stripProp_ne (q : ParamObj) {p p2 : String} (h : p ≠ p2) :
    lookupP (stripProp q p) p2 = lookupP q p2 := by
  rcases hq : lookupP q p with - | v
  · simp [stripProp, hq]
  · cases v with
    | vStr t =>
      by_cases hm : hasHexMarker t
      · simp [stripProp, hq, hm, lookupP_setP_ne _ _ h]
      · simp [stripProp, hq, hm]
    | vList l => simp [stripProp, hq]

theorem lookupP_transformAddrs (q : ParamObj) (prop : String)
    (hmem : prop ∈ addressProps) :
    lookupP (transformAddrs q) prop =
      (match lookupP q prop with
       | some (.vStr t) => if hasHexMarker t then some (.vStr (t.drop 2)) else some (.vStr t)
       | o => o) := by
  have hform : transformAddrs q =
      stripProp (stripProp (stripProp (stripProp q "contract") "account") "from") "to" := rfl
  rw [hform]
  simp only [addressProps, List.mem_cons, List.not_mem_nil, or_false] at hmem
  rcases hmem with rfl | rfl | rfl | rfl
  · rw [lookupP_stripProp_ne _ (by decide), lookupP_stripProp_ne _ (by decide),
      lookupP_stripProp_ne _ (by decide), lookupP_stripProp_self]
  · rw [lookupP_stripProp_ne _ (by decide), lookupP_stripProp_ne _ (by decide),
      lookupP_stripProp_self, lookupP_stripProp_ne _ (by decide)]
  · rw [lookupP_stripProp_ne _ (by decide), lookupP_stripProp_self,
      lookupP_stripProp_ne _ (by decide), lookupP_stripProp_ne _ (by decide)]
  · rw [lookupP_stripProp_self, lookupP_stripProp_ne _ (by decide),
      lookupP_stripProp_ne _ (by decide), lookupP_stripProp_ne _ (by decide)]

/-- C2 claims every string-valued `block_range` is split before validation.
Refuted at the empty string: `if (q.block_range)` is false for the falsy
value "", so an empty `block_range` stays a string instead of being split
into `[""]`. -/
theorem C2_counterexample :
    preprocessQuery [("block_range", [])] = [("block_range", JSVal.vStr [])] ∧
    JSVal.vStr [] ≠ JSVal.vList (splitComma []) := by
  refine ⟨by decide, by decide⟩

/-- C2 amended: a NON-EMPTY string-valued `block_range` is split on commas
into an ordered list before schema validation (the falsy empty string is
left untouched); the "0x" stripping of `contract`/`account`/`from`/`to` is
a post-processing transform applied only to a successful parse — a failed
parse keeps its issues computed on the still-prefixed values — and on
success each of the four fields that is a truthy string with a
case-insensitive "0x" marker loses its first two characters. -/
theorem C2_preprocess_then_strip (schema : ParamObj → ParseResult ParamObj)
    (raw : RawQuery) (s : List Char) (d : ParamObj) (issues : List ZodIssue)
    (prop : String) :
    (lookupR raw "block_range" = some s → s ≠ [] →
      lookupP (preprocessQuery raw) "block_range" = some (.vList (splitComma s))) ∧
    (schema (preprocessQuery raw) = .failure issues →
      queryParse schema raw = .failure issues) ∧
    (schema (preprocessQuery raw) = .success d →
      queryParse schema raw = .success (transformAddrs d)) ∧
    (prop ∈ addressProps →
      lookupP (transformAddrs d) prop =
        (match lookupP d prop with
         | some (.vStr t) =>
           if hasHexMarker t then some (.vStr (t.drop 2)) else some (.vStr t)
         | o => o)) := by
  refine ⟨fun hbr hne => ?_, fun hf => ?_, fun hs => ?_,
    fun hmem => lookupP_transformAddrs d prop hmem⟩
  · have hm : s.isEmpty = false := by simpa using hne
    simp only [preprocessQuery, lookupP_map_vStr, hbr, Option.map_some', hm,
      Bool.false_eq_true, if_false]
    exact lookupP_setP_self _ _ _
  · simp [queryParse, hf]
  · simp [queryParse, hs]

/-- Witness for the amended C2: `block_range=100,200` is split into the
ordered list ["100", "200"] before validation. -/
theorem C2_preprocess_then_strip_witness :
    lookupP (preprocessQuery [("block_range", "100,200".toList)]) "block_range" =
      some (.vList (splitComma "100,200".toList)) :=
  (C2_preprocess_then_strip (fun q => .success q) [("block_range", "100,200".toList)]
    ("100,200".toList) [] [] "contract").1 (by decide) (by decide)

end TokenApi
